import Mathlib

/-!
Verification development for the task-manager client.

The definitions below are a shallow embedding of the client source:
the JavaScript string primitives used by the view-state deriver
(`trim`, `toLowerCase`, `includes`, string truthiness), the `Task`
data model from `src/api.ts`, the filter and grouping pipeline from
`src/App.tsx` (`normalizedSearch`, `filteredTasks`, `grouped`), the
task mutation handlers, the session-restore flow (`init`), and the
API-client error normalization from `src/api.ts`.

Remote calls are modelled by passing their outcome (an `Except` value
or a response record) explicitly to the embedded handler, since the
network is an external collaborator.
-/

namespace TaskManager

/-- Embedding of `String.prototype.trim`: drop whitespace from both ends. -/
def jsTrim (s : String) : String :=
  ⟨((s.data.dropWhile Char.isWhitespace).reverse.dropWhile Char.isWhitespace).reverse⟩

/-- Embedding of `String.prototype.toLowerCase`: lowercase every character. -/
def jsToLower (s : String) : String :=
  ⟨s.data.map Char.toLower⟩

/-- Whether `needle` occurs at the start of `s` (character lists). -/
def startsWithList (needle : List Char) : List Char → Bool
  | [] => needle.isEmpty
  | c :: tail =>
    match needle with
    | [] => true
    | n :: ns => n == c && startsWithList ns tail

/-- Whether `needle` occurs contiguously anywhere inside `s`. -/
def hasSubstr (needle : List Char) : List Char → Bool
  | [] => needle.isEmpty
  | c :: tail => startsWithList needle (c :: tail) || hasSubstr needle tail

/-- Embedding of `haystack.includes(needle)`: substring containment. -/
def jsIncludes (haystack needle : String) : Bool :=
  hasSubstr needle.data haystack.data

/-- Embedding of JS string truthiness: a string is falsy exactly when empty. -/
def jsFalsy (s : String) : Bool :=
  s == ""

/-- Embedding of `msg || fallback` on strings: the fallback replaces a falsy
(empty) message. -/
def jsOrDefault (msg fallback : String) : String :=
  if jsFalsy msg then fallback else msg

/-- The `Task` record from `src/api.ts`. The `status` and `priority` fields
are strings at runtime (remote data may not respect the TypeScript union),
matching the defensive handling in `App.tsx`. -/
structure Task where
  _id : String
  title : String
  description : Option String
  status : String
  priority : String
  dueDate : Option String
  completed : Bool
  createdAt : String
  updatedAt : String
deriving DecidableEq

/-- The `User` record from `src/api.ts`. -/
structure User where
  _id : String
  name : Option String
  email : String
deriving DecidableEq

/-- The `AuthResponse` record from `src/api.ts`. -/
structure AuthResponse where
  token : String
  user : User
deriving DecidableEq

/-- `normalizedSearch` from `App.tsx` line 405:
`searchTerm.trim().toLowerCase()`. -/
def normalizedSearch (searchTerm : String) : String :=
  jsToLower (jsTrim searchTerm)

/-- `matchesStatus` from `App.tsx` lines 408-409:
`statusFilter === "all" ? true : task.status === statusFilter`. -/
def matchesStatus (task : Task) (statusFilter : String) : Bool :=
  if statusFilter == "all" then true else task.status == statusFilter

/-- `matchesSearch` from `App.tsx` lines 411-414:
`!normalizedSearch || task.title.toLowerCase().includes(normalizedSearch) ||
(task.description ?? "").toLowerCase().includes(normalizedSearch)`. -/
def matchesSearch (task : Task) (normalized : String) : Bool :=
  jsFalsy normalized ||
    jsIncludes (jsToLower task.title) normalized ||
    jsIncludes (jsToLower (task.description.getD "")) normalized

/-- `filteredTasks` from `App.tsx` lines 407-417: keep the tasks matching
both predicates, by a stable filter. -/
def filteredTasks (tasks : List Task) (statusFilter searchTerm : String) :
    List Task :=
  let normalized := normalizedSearch searchTerm
  tasks.filter (fun task => matchesStatus task statusFilter && matchesSearch task normalized)

/-- The status a task is grouped under, from `App.tsx` lines 427-432:
the own status when recognized, else the fallback `"todo"`. -/
def bucketOf (task : Task) : String :=
  if task.status == "todo" || task.status == "in-progress" || task.status == "done"
  then task.status else "todo"

/-- The grouping accumulator from `App.tsx` lines 419-423: one list per
status key. -/
structure Grouped where
  todo : List Task
  inProgress : List Task
  done : List Task
deriving DecidableEq

/-- One iteration of the `forEach` loop in `App.tsx` lines 425-435:
`grouped[status].push(task)` for the computed bucket status. -/
def groupStep (g : Grouped) (task : Task) : Grouped :=
  if bucketOf task == "todo" then { g with todo := g.todo ++ [task] }
  else if bucketOf task == "in-progress" then { g with inProgress := g.inProgress ++ [task] }
  else if bucketOf task == "done" then { g with done := g.done ++ [task] }
  else g

/-- `grouped` from `App.tsx` lines 419-435: fold the push loop over the
filtered list, starting from three empty buckets. -/
def grouped (filtered : List Task) : Grouped :=
  filtered.foldl groupStep ⟨[], [], []⟩

/-- Case-insensitive substring relation, following the spec wording: the
needle occurs contiguously in the haystack after lowercasing both. -/
def ciSubstring (needle hay : String) : Bool :=
  jsIncludes (jsToLower hay) (jsToLower needle)

/-- The partial update payload the client sends to `PATCH /tasks/:id` from
the toggle and status-change handlers: the `completed` and `status` fields. -/
structure UpdatePayload where
  completed : Bool
  status : String
deriving DecidableEq

/-- The payload computed by `handleToggleComplete` (`App.tsx` lines 367-370):
`completed = !task.completed` and `status = completed ? "done" : "todo"`. -/
def toggleCompletePayload (task : Task) : UpdatePayload :=
  let completed := !task.completed
  let status := if completed then "done" else "todo"
  { completed := completed, status := status }

/-- The payload computed by `handleStatusChange` (`App.tsx` lines 382-384):
`completed = status === "done"`. -/
def statusChangePayload (status : String) : UpdatePayload :=
  { completed := status == "done", status := status }

/-- The aspects of an HTTP response the api-client error path inspects: the
`ok` flag, the JSON-parse outcome of the body restricted to its `error`
field (`none` means `res.json()` rejected, `some none` means the body parsed
but has no `error` field), and the success payload. -/
structure ApiResponse (α : Type) where
  ok : Bool
  errorField : Option (Option String)
  payload : α

/-- The `data.error` lookup after `await res.json().catch(() => ({}))`: a
parse failure yields the empty object, whose `error` field is absent. -/
def bodyError (errorField : Option (Option String)) : Option String :=
  match errorField with
  | none => none
  | some f => f

/-- The message of the thrown error: `data.error || fallback` (JS `||`, so a
present but empty `error` string also falls back). -/
def throwMessage (errorField : Option (Option String)) (fallback : String) : String :=
  match bodyError errorField with
  | some e => jsOrDefault e fallback
  | none => fallback

/-- Common shape of every operation in `src/api.ts`: return the parsed
payload when `res.ok`, else throw the normalized message. -/
def apiResult {α : Type} (resp : ApiResponse α) (fallback : String) : Except String α :=
  if resp.ok then Except.ok resp.payload
  else Except.error (throwMessage resp.errorField fallback)

/-- `registerUser` from `src/api.ts` lines 99-116, as a function of the
response. -/
def registerUser (resp : ApiResponse AuthResponse) : Except String AuthResponse :=
  apiResult resp "Failed to register"

/-- `loginUser` from `src/api.ts` lines 118-134. -/
def loginUser (resp : ApiResponse AuthResponse) : Except String AuthResponse :=
  apiResult resp "Failed to login"

/-- `getCurrentuser` from `src/api.ts` lines 136-149. -/
def getCurrentuser (resp : ApiResponse User) : Except String User :=
  apiResult resp "Failed to load user"

/-- `fetchTasks` from `src/api.ts` lines 153-165. -/
def fetchTasks (resp : ApiResponse (List Task)) : Except String (List Task) :=
  apiResult resp "Failed to fetch tasks"

/-- `createTask` from `src/api.ts` lines 167-188. -/
def createTask (resp : ApiResponse Task) : Except String Task :=
  apiResult resp "Failed to create task"

/-- `updateTask` from `src/api.ts` lines 190-209. -/
def updateTask (resp : ApiResponse Task) : Except String Task :=
  apiResult resp "Failed to update task"

/-- `deleteTask` from `src/api.ts` lines 211-224. -/
def deleteTask (resp : ApiResponse Unit) : Except String Unit :=
  apiResult resp "Failed to delete task"

/-- The React state of the `App` component plus the localStorage `token`
entry (the durable session store). -/
structure AppState where
  tasks : List Task
  loading : Bool
  error : Option String
  title : String
  description : String
  statusFilter : String
  searchTerm : String
  user : Option User
  authMode : String
  authName : String
  authEmail : String
  authPassword : String
  authError : Option String
  authLoading : Bool
  token : Option String
deriving DecidableEq

/-- `loadTasks` from `App.tsx` lines 262-274, as a function of the
`fetchTasks` outcome: on success store the tasks and clear the error, on
failure set the error message; either way loading ends false. -/
def loadTasks (s : AppState) (fetchResult : Except String (List Task)) : AppState :=
  let s0 := { s with loading := true }
  match fetchResult with
  | Except.ok data => { s0 with tasks := data, error := none, loading := false }
  | Except.error msg =>
      { s0 with error := some (jsOrDefault msg "Failed to load tasks"), loading := false }

/-- `handleLogin` from `App.tsx` lines 323-340, as a function of the
`loginUser` outcome and the subsequent `fetchTasks` outcome. On success the
token is stored, the user set, the credentials cleared and the tasks loaded;
on failure only `authError` is set. -/
def handleLogin (s : AppState) (loginResult : Except String AuthResponse)
    (fetchResult : Except String (List Task)) : AppState :=
  let s0 := { s with authError := none, authLoading := true }
  match loginResult with
  | Except.ok res =>
      let s1 := { s0 with
        token := some res.token
        user := some res.user
        authEmail := ""
        authPassword := "" }
      { loadTasks s1 fetchResult with authLoading := false }
  | Except.error msg =>
      { s0 with authError := some (jsOrDefault msg "Login failed"), authLoading := false }

/-- JS truthiness of the stored token: `!token` is true when the key is
missing or holds the empty string. -/
def tokenAbsent (token : Option String) : Bool :=
  match token with
  | none => true
  | some t => jsFalsy t

/-- The `init` effect from `App.tsx` lines 278-299, as a function of the
`getCurrentuser` and `fetchTasks` outcomes. The second component records the
api calls performed (`loadTasks` catches internally, so a fetch failure does
not reach the outer catch). -/
def init (s : AppState) (meResult : Except String User)
    (fetchResult : Except String (List Task)) : AppState × List String :=
  if tokenAbsent s.token then ({ s with loading := false }, [])
  else
    match meResult with
    | Except.ok me =>
        (loadTasks { s with user := some me } fetchResult, ["getCurrentuser", "fetchTasks"])
    | Except.error _ =>
        ({ s with token := none, user := none, loading := false }, ["getCurrentuser"])

/-- `handleToggleComplete` from `App.tsx` lines 365-378: compute the toggled
payload, call the update api with the task id, and on success replace the
task matched by id; on failure set only the error message. -/
def handleToggleComplete (s : AppState) (task : Task)
    (updateApi : String → UpdatePayload → Except String Task) : AppState :=
  match updateApi task._id (toggleCompletePayload task) with
  | Except.ok updated =>
      { s with tasks := s.tasks.map (fun t => if t._id == updated._id then updated else t) }
  | Except.error msg =>
      { s with error := some (jsOrDefault msg "Failed to update task") }

/-- `handleStatusChange` from `App.tsx` lines 380-392: same update shape with
the payload derived from the selected status. -/
def handleStatusChange (s : AppState) (task : Task) (status : String)
    (updateApi : String → UpdatePayload → Except String Task) : AppState :=
  match updateApi task._id (statusChangePayload status) with
  | Except.ok updated =>
      { s with tasks := s.tasks.map (fun t => if t._id == updated._id then updated else t) }
  | Except.error msg =>
      { s with error := some (jsOrDefault msg "Failed to update status") }

/-- `handleDelete` from `App.tsx` lines 394-401: on success drop the task
matched by id; on failure set only the error message. -/
def handleDelete (s : AppState) (taskId : String)
    (deleteApi : String → Except String Unit) : AppState :=
  match deleteApi taskId with
  | Except.ok _ => { s with tasks := s.tasks.filter (fun t => t._id != taskId) }
  | Except.error msg =>
      { s with error := some (jsOrDefault msg "Failed to delete task") }

/-- A default initial state mirroring the `useState` initializers in
`App.tsx`: empty task list, loading true, no errors, empty form fields,
login mode, no user, no stored token. -/
def initialAppState : AppState :=
  { tasks := []
    loading := true
    error := none
    title := ""
    description := ""
    statusFilter := "all"
    searchTerm := ""
    user := none
    authMode := "login"
    authName := ""
    authEmail := ""
    authPassword := ""
    authError := none
    authLoading := false
    token := none }

/-- A sample well-formed task used to instantiate quantified statements. -/
def sampleTask : Task :=
  { _id := "42"
    title := "Buy Milk"
    description := some "2 liters"
    status := "todo"
    priority := "medium"
    dueDate := none
    completed := false
    createdAt := "c"
    updatedAt := "u" }

/-- A sample task whose status is not one of the three recognized values. -/
def strayTask : Task :=
  { _id := "9"
    title := "Stray"
    description := none
    status := "blocked"
    priority := "low"
    dueDate := none
    completed := false
    createdAt := "c"
    updatedAt := "u" }

/-- A sample user. -/
def sampleUser : User :=
  { _id := "u1", name := some "Ada", email := "ada@example.com" }

theorem jsFalsy_iff (s : String) : jsFalsy s = true ↔ s = "" := by
  simp [jsFalsy]

theorem filteredTasks_all_empty (tasks : List Task) :
    filteredTasks tasks "all" "" = tasks := by
  simp [filteredTasks, matchesStatus, matchesSearch, normalizedSearch, jsTrim, jsToLower, jsFalsy]

theorem bucketOf_cases (t : Task) :
    bucketOf t = "todo" ∨ bucketOf t = "in-progress" ∨ bucketOf t = "done" := by
  unfold bucketOf
  by_cases h1 : t.status = "todo"
  · simp [h1]
  · by_cases h2 : t.status = "in-progress"
    · simp [h1, h2]
    · by_cases h3 : t.status = "done"
      · simp [h1, h2, h3]
      · simp [h1, h2, h3]

theorem foldl_groupStep (l : List Task) (g : Grouped) :
    (l.foldl groupStep g).todo = g.todo ++ l.filter (fun t => bucketOf t == "todo") ∧
    (l.foldl groupStep g).inProgress
      = g.inProgress ++ l.filter (fun t => bucketOf t == "in-progress") ∧
    (l.foldl groupStep g).done = g.done ++ l.filter (fun t => bucketOf t == "done") := by
  induction l generalizing g with
  | nil => simp
  | cons t l ih =>
    rcases bucketOf_cases t with h | h | h
    · have hg : groupStep g t = { g with todo := g.todo ++ [t] } := by
        simp [groupStep, h]
      obtain ⟨ih1, ih2, ih3⟩ := ih { g with todo := g.todo ++ [t] }
      refine ⟨?_, ?_, ?_⟩ <;>
        simp [List.foldl_cons, hg, ih1, ih2, ih3, List.filter_cons, h]
    · have hg : groupStep g t = { g with inProgress := g.inProgress ++ [t] } := by
        simp [groupStep, h]
      obtain ⟨ih1, ih2, ih3⟩ := ih { g with inProgress := g.inProgress ++ [t] }
      refine ⟨?_, ?_, ?_⟩ <;>
        simp [List.foldl_cons, hg, ih1, ih2, ih3, List.filter_cons, h]
    · have hg : groupStep g t = { g with done := g.done ++ [t] } := by
        simp [groupStep, h]
      obtain ⟨ih1, ih2, ih3⟩ := ih { g with done := g.done ++ [t] }
      refine ⟨?_, ?_, ?_⟩ <;>
        simp [List.foldl_cons, hg, ih1, ih2, ih3, List.filter_cons, h]

theorem grouped_todo (l : List Task) :
    (grouped l).todo = l.filter (fun t => bucketOf t == "todo") := by
  simpa [grouped] using (foldl_groupStep l ⟨[], [], []⟩).1

theorem grouped_inProgress (l : List Task) :
    (grouped l).inProgress = l.filter (fun t => bucketOf t == "in-progress") := by
  simpa [grouped] using (foldl_groupStep l ⟨[], [], []⟩).2.1

theorem grouped_done (l : List Task) :
    (grouped l).done = l.filter (fun t => bucketOf t == "done") := by
  simpa [grouped] using (foldl_groupStep l ⟨[], [], []⟩).2.2

theorem grouped_concat_perm (l : List Task) :
    List.Perm ((grouped l).todo ++ (grouped l).inProgress ++ (grouped l).done) l := by
  rw [grouped_todo, grouped_inProgress, grouped_done]
  induction l with
  | nil => simp
  | cons t l ih =>
    rcases bucketOf_cases t with h | h | h
    · have hp : List.filter (fun t => bucketOf t == "todo") (t :: l)
          = t :: List.filter (fun t => bucketOf t == "todo") l := by
        simp [List.filter_cons, h]
      have hq : List.filter (fun t => bucketOf t == "in-progress") (t :: l)
          = List.filter (fun t => bucketOf t == "in-progress") l := by
        simp [List.filter_cons, h]
      have hr : List.filter (fun t => bucketOf t == "done") (t :: l)
          = List.filter (fun t => bucketOf t == "done") l := by
        simp [List.filter_cons, h]
      rw [hp, hq, hr]
      exact List.Perm.cons t ih
    · have hp : List.filter (fun t => bucketOf t == "todo") (t :: l)
          = List.filter (fun t => bucketOf t == "todo") l := by
        simp [List.filter_cons, h]
      have hq : List.filter (fun t => bucketOf t == "in-progress") (t :: l)
          = t :: List.filter (fun t => bucketOf t == "in-progress") l := by
        simp [List.filter_cons, h]
      have hr : List.filter (fun t => bucketOf t == "done") (t :: l)
          = List.filter (fun t => bucketOf t == "done") l := by
        simp [List.filter_cons, h]
      rw [hp, hq, hr]
      have e : List.filter (fun t => bucketOf t == "todo") l
            ++ (t :: List.filter (fun t => bucketOf t == "in-progress") l)
            ++ List.filter (fun t => bucketOf t == "done") l
          = List.filter (fun t => bucketOf t == "todo") l
            ++ t :: (List.filter (fun t => bucketOf t == "in-progress") l
              ++ List.filter (fun t => bucketOf t == "done") l) := by
        simp
      rw [e]
      refine List.Perm.trans List.perm_middle ?_
      refine List.Perm.cons t ?_
      simpa [List.append_assoc] using ih
    · have hp : List.filter (fun t => bucketOf t == "todo") (t :: l)
          = List.filter (fun t => bucketOf t == "todo") l := by
        simp [List.filter_cons, h]
      have hq : List.filter (fun t => bucketOf t == "in-progress") (t :: l)
          = List.filter (fun t => bucketOf t == "in-progress") l := by
        simp [List.filter_cons, h]
      have hr : List.filter (fun t => bucketOf t == "done") (t :: l)
          = t :: List.filter (fun t => bucketOf t == "done") l := by
        simp [List.filter_cons, h]
      rw [hp, hq, hr]
      exact List.Perm.trans List.perm_middle (List.Perm.cons t ih)

theorem filteredTasks_status_cases (L : List Task) :
    filteredTasks L "todo" "" = L.filter (fun t => t.status == "todo") ∧
    filteredTasks L "in-progress" "" = L.filter (fun t => t.status == "in-progress") ∧
    filteredTasks L "done" "" = L.filter (fun t => t.status == "done") := by
  refine ⟨?_, ?_, ?_⟩ <;>
    simp [filteredTasks, matchesStatus, matchesSearch, normalizedSearch, jsTrim, jsToLower, jsFalsy]

theorem char_toNat_ofNat_of_valid (n : Nat) (h : n.isValidChar) :
    (Char.ofNat n).toNat = n := by
  simp [Char.ofNat, h, Char.ofNatAux, Char.toNat, UInt32.toNat, BitVec.toNat_ofNatLt]

theorem char_toLower_idem (c : Char) : c.toLower.toLower = c.toLower := by
  unfold Char.toLower
  by_cases h : c.toNat ≥ 65 ∧ c.toNat ≤ 90
  · rw [if_pos h]
    have hv : (c.toNat + 32).isValidChar := Or.inl (by omega)
    have hn : (Char.ofNat (c.toNat + 32)).toNat = c.toNat + 32 :=
      char_toNat_ofNat_of_valid _ hv
    rw [hn, if_neg (by omega)]
  · rw [if_neg h, if_neg h]

theorem jsToLower_idem (s : String) : jsToLower (jsToLower s) = jsToLower s := by
  simp [jsToLower, List.map_map, Function.comp_def, char_toLower_idem]

/-- C1: for every task list, status filter and search term, the grouping
step partitions the filtered list into the three buckets keyed todo,
in-progress, done: their concatenation in that fixed order is a permutation
of the filtered list, and each bucket is a sublist of the filtered list and
hence preserves its relative order. -/
theorem claim1_grouping_partitions (tasks : List Task) (statusFilter searchTerm : String) :
    List.Perm ((grouped (filteredTasks tasks statusFilter searchTerm)).todo
        ++ (grouped (filteredTasks tasks statusFilter searchTerm)).inProgress
        ++ (grouped (filteredTasks tasks statusFilter searchTerm)).done)
      (filteredTasks tasks statusFilter searchTerm) ∧
    List.Sublist (grouped (filteredTasks tasks statusFilter searchTerm)).todo
      (filteredTasks tasks statusFilter searchTerm) ∧
    List.Sublist (grouped (filteredTasks tasks statusFilter searchTerm)).inProgress
      (filteredTasks tasks statusFilter searchTerm) ∧
    List.Sublist (grouped (filteredTasks tasks statusFilter searchTerm)).done
      (filteredTasks tasks statusFilter searchTerm) := by
  refine ⟨grouped_concat_perm _, ?_, ?_, ?_⟩
  · rw [grouped_todo]
    exact List.filter_sublist _
  · rw [grouped_inProgress]
    exact List.filter_sublist _
  · rw [grouped_done]
    exact List.filter_sublist _

/-- C2: filtering with a specific status among todo, in-progress, done and
the empty search term returns exactly the stable filter of the input list by
the predicate `task.status == S`, so the result is the subsequence of the
input with that status in the original relative order. -/
theorem claim2_status_filter_exact (L : List Task) :
    filteredTasks L "todo" "" = L.filter (fun t => t.status == "todo") ∧
    filteredTasks L "in-progress" "" = L.filter (fun t => t.status == "in-progress") ∧
    filteredTasks L "done" "" = L.filter (fun t => t.status == "done") :=
  filteredTasks_status_cases L

/-- C3: a task matches the search predicate iff the normalized term
(trimmed, lowercased) is empty, or is a case-insensitive substring of the
title, or a case-insensitive substring of the description, with a missing
description read as the empty string. -/
theorem claim3_search_predicate_iff (task : Task) (searchTerm : String) :
    matchesSearch task (normalizedSearch searchTerm) = true ↔
      (normalizedSearch searchTerm = "" ∨
        ciSubstring (normalizedSearch searchTerm) task.title = true ∨
        ciSubstring (normalizedSearch searchTerm) (task.description.getD "") = true) := by
  simp only [matchesSearch, ciSubstring, normalizedSearch, jsToLower_idem,
    Bool.or_eq_true, jsFalsy_iff]
  tauto

/-- C4: filtering with the all status filter and the empty search term is
the order-preserving identity on the task list. -/
theorem claim4_filter_all_identity (tasks : List Task) :
    filteredTasks tasks "all" "" = tasks :=
  filteredTasks_all_empty tasks

/-- C5: every task of the filtered list whose status is none of the three
recognized values is placed in the todo bucket by the grouping step rather
than dropped. -/
theorem claim5_unrecognized_status_in_todo (tasks : List Task)
    (statusFilter searchTerm : String) (t : Task)
    (ht : t ∈ filteredTasks tasks statusFilter searchTerm)
    (h1 : t.status ≠ "todo") (h2 : t.status ≠ "in-progress") (h3 : t.status ≠ "done") :
    t ∈ (grouped (filteredTasks tasks statusFilter searchTerm)).todo := by
  rw [grouped_todo]
  refine List.mem_filter.mpr ⟨ht, ?_⟩
  simp [bucketOf, h1, h2, h3]

/-- C5 witness: a concrete task with the unrecognized status blocked
survives an all filter and lands in the todo bucket. -/
theorem claim5_witness :
    strayTask ∈ (grouped (filteredTasks [strayTask] "all" "")).todo :=
  claim5_unrecognized_status_in_todo [strayTask] "all" "" strayTask
    (by decide) (by decide) (by decide) (by decide)

/-- C6: both mutation payloads couple the completed flag to the done status.
The toggle payload always satisfies completed = (status == done); toggling a
task that is not completed sends status done with completed true, toggling a
completed task sends status todo with completed false; the status-change
payload sends completed = (status == done), so selecting done sends true and
selecting any other status sends false. -/
theorem claim6_completed_status_coupling :
    (∀ task : Task,
      (toggleCompletePayload task).completed
        = ((toggleCompletePayload task).status == "done")) ∧
    (∀ status : String,
      (statusChangePayload status).completed = (status == "done")) ∧
    (∀ task : Task, task.completed = false →
      toggleCompletePayload task = { completed := true, status := "done" }) ∧
    (∀ task : Task, task.completed = true →
      toggleCompletePayload task = { completed := false, status := "todo" }) ∧
    (∀ status : String, status ≠ "done" →
      (statusChangePayload status).completed = false) := by
  refine ⟨?_, ?_, ?_, ?_, ?_⟩
  · intro task
    cases h : task.completed <;> simp [toggleCompletePayload, h]
  · intro status
    rfl
  · intro task h
    simp [toggleCompletePayload, h]
  · intro task h
    simp [toggleCompletePayload, h]
  · intro status h
    simp [statusChangePayload, h]

/-- C6 witness: toggling the sample not-completed todo task yields the
done-and-completed payload, and selecting in-progress sends completed
false. -/
theorem claim6_witness :
    toggleCompletePayload sampleTask = { completed := true, status := "done" } ∧
    (statusChangePayload "in-progress").completed = false :=
  ⟨claim6_completed_status_coupling.2.2.1 sampleTask rfl,
   claim6_completed_status_coupling.2.2.2.2 "in-progress" (by decide)⟩

/-- C7 counterexample: with a non-success response whose JSON body carries a
present but empty error field, the thrown message is the operation fallback
rather than the present field value, refuting the claim as stated. -/
theorem claim7_counterexample :
    fetchTasks { ok := false, errorField := some (some ""), payload := [] }
      = Except.error "Failed to fetch tasks"
    ∧ ("Failed to fetch tasks" : String) ≠ "" := by
  exact ⟨rfl, by decide⟩

/-- C7 amended: on any non-success response every api operation throws its
operation-specific fallback message when the JSON body fails to parse, has
no error field, or has an empty error field, and throws the error field
value exactly when it is present and non-empty; the error path is a total
function, so no crash. -/
theorem claim7_error_normalization (fallback e : String) :
    (throwMessage none fallback = fallback) ∧
    (throwMessage (some none) fallback = fallback) ∧
    (throwMessage (some (some "")) fallback = fallback) ∧
    (e ≠ "" → throwMessage (some (some e)) fallback = e) ∧
    (∀ resp : ApiResponse (List Task), resp.ok = false →
      fetchTasks resp = Except.error (throwMessage resp.errorField "Failed to fetch tasks")) ∧
    (∀ resp : ApiResponse AuthResponse, resp.ok = false →
      loginUser resp = Except.error (throwMessage resp.errorField "Failed to login")) ∧
    (∀ resp : ApiResponse AuthResponse, resp.ok = false →
      registerUser resp = Except.error (throwMessage resp.errorField "Failed to register")) ∧
    (∀ resp : ApiResponse User, resp.ok = false →
      getCurrentuser resp = Except.error (throwMessage resp.errorField "Failed to load user")) ∧
    (∀ resp : ApiResponse Task, resp.ok = false →
      createTask resp = Except.error (throwMessage resp.errorField "Failed to create task")) ∧
    (∀ resp : ApiResponse Task, resp.ok = false →
      updateTask resp = Except.error (throwMessage resp.errorField "Failed to update task")) ∧
    (∀ resp : ApiResponse Unit, resp.ok = false →
      deleteTask resp = Except.error (throwMessage resp.errorField "Failed to delete task")) := by
  refine ⟨rfl, rfl, rfl, ?_, ?_, ?_, ?_, ?_, ?_, ?_, ?_⟩
  · intro h
    simp [throwMessage, bodyError, jsOrDefault, jsFalsy, h]
  all_goals
    intro resp h
    simp [fetchTasks, loginUser, registerUser, getCurrentuser, createTask,
      updateTask, deleteTask, apiResult, h]

/-- C7 witness: a rejected login with a parsed non-empty error field throws
that field, and a rejected login whose body fails to parse throws the login
fallback. -/
theorem claim7_witness :
    throwMessage (some (some "Invalid credentials")) "Failed to login"
      = "Invalid credentials" ∧
    loginUser { ok := false, errorField := none, payload := { token := "", user := sampleUser } }
      = Except.error "Failed to login" := by
  constructor
  · exact (claim7_error_normalization "Failed to login" "Invalid credentials").2.2.2.1
      (by decide)
  · exact (claim7_error_normalization "Failed to login" "x").2.2.2.2.2.1
      { ok := false, errorField := none, payload := { token := "", user := sampleUser } } rfl

/-- C8: on a rejected login no token is written to the session store, the
user state (hence the unauthenticated view) and the task list are unchanged,
and the auth error carries the failure message; the token write and the user
change happen exactly on a successful login response. -/
theorem claim8_rejected_login (s : AppState) (msg : String)
    (res : AuthResponse) (fetchResult : Except String (List Task)) :
    ((handleLogin s (Except.error msg) fetchResult).token = s.token) ∧
    ((handleLogin s (Except.error msg) fetchResult).user = s.user) ∧
    ((handleLogin s (Except.error msg) fetchResult).tasks = s.tasks) ∧
    ((handleLogin s (Except.error msg) fetchResult).authError
      = some (jsOrDefault msg "Login failed")) ∧
    ((handleLogin s (Except.ok res) fetchResult).token = some res.token) ∧
    ((handleLogin s (Except.ok res) fetchResult).user = some res.user) := by
  refine ⟨rfl, rfl, rfl, rfl, ?_, ?_⟩ <;>
    cases fetchResult <;> simp [handleLogin, loadTasks]

/-- C9: with no stored token, init finishes loading immediately and performs
no api call; with a stored non-empty token rejected by the current-user
check, init removes the token, clears the user, ends loading, and performed
only the current-user call, never the task fetch. -/
theorem claim9_session_restore (s : AppState) (t msg : String)
    (meResult : Except String User) (fetchResult : Except String (List Task)) :
    (s.token = none →
      init s meResult fetchResult = ({ s with loading := false }, [])) ∧
    (s.token = some t → t ≠ "" →
      ((init s (Except.error msg) fetchResult).1.token = none ∧
       (init s (Except.error msg) fetchResult).1.user = none ∧
       (init s (Except.error msg) fetchResult).1.loading = false ∧
       (init s (Except.error msg) fetchResult).2 = ["getCurrentuser"])) := by
  constructor
  · intro h
    simp [init, tokenAbsent, h]
  · intro h ht
    have habs : tokenAbsent s.token = false := by
      simp [tokenAbsent, h, jsFalsy, ht]
    refine ⟨?_, ?_, ?_, ?_⟩ <;> simp [init, habs]

/-- C9 witness: starting with no stored token performs no call, and starting
with a stale stored token that the current-user check rejects clears the
token. -/
theorem claim9_witness :
    init initialAppState (Except.error "jwt expired") (Except.ok [])
      = ({ initialAppState with loading := false }, []) ∧
    (init { initialAppState with token := some "stale" }
        (Except.error "jwt expired") (Except.ok [])).1.token = none := by
  constructor
  · exact (claim9_session_restore initialAppState "x" "jwt expired"
      (Except.error "jwt expired") (Except.ok [])).1 rfl
  · exact ((claim9_session_restore { initialAppState with token := some "stale" }
      "stale" "jwt expired" (Except.error "jwt expired") (Except.ok [])).2
      rfl (by decide)).1

/-- C10: for each task mutation handler, a failed api call leaves the state
unchanged except for the error message, and a successful call modifies the
task list by identifier: the update handlers replace the task matched by the
returned id, and delete removes the task matched by the given id, so no
surviving task carries that id. -/
theorem claim10_mutation_handlers (s : AppState) (task : Task)
    (taskId msg status : String) (updated : Task) :
    (∀ updateApi : String → UpdatePayload → Except String Task,
      updateApi task._id (toggleCompletePayload task) = Except.error msg →
      handleToggleComplete s task updateApi
        = { s with error := some (jsOrDefault msg "Failed to update task") }) ∧
    (∀ updateApi : String → UpdatePayload → Except String Task,
      updateApi task._id (statusChangePayload status) = Except.error msg →
      handleStatusChange s task status updateApi
        = { s with error := some (jsOrDefault msg "Failed to update status") }) ∧
    (∀ deleteApi : String → Except String Unit,
      deleteApi taskId = Except.error msg →
      handleDelete s taskId deleteApi
        = { s with error := some (jsOrDefault msg "Failed to delete task") }) ∧
    (∀ updateApi : String → UpdatePayload → Except String Task,
      updateApi task._id (toggleCompletePayload task) = Except.ok updated →
      (handleToggleComplete s task updateApi).tasks
        = s.tasks.map (fun t => if t._id == updated._id then updated else t)) ∧
    (∀ updateApi : String → UpdatePayload → Except String Task,
      updateApi task._id (statusChangePayload status) = Except.ok updated →
      (handleStatusChange s task status updateApi).tasks
        = s.tasks.map (fun t => if t._id == updated._id then updated else t)) ∧
    (∀ deleteApi : String → Except String Unit,
      deleteApi taskId = Except.ok () →
      ((handleDelete s taskId deleteApi).tasks
          = s.tasks.filter (fun t => t._id != taskId) ∧
        ∀ t, t ∈ (handleDelete s taskId deleteApi).tasks → t._id ≠ taskId)) := by
  refine ⟨?_, ?_, ?_, ?_, ?_, ?_⟩
  · intro updateApi h
    simp [handleToggleComplete, h]
  · intro updateApi h
    simp [handleStatusChange, h]
  · intro deleteApi h
    simp [handleDelete, h]
  · intro updateApi h
    simp [handleToggleComplete, h]
  · intro updateApi h
    simp [handleStatusChange, h]
  · intro deleteApi h
    refine ⟨by simp [handleDelete, h], ?_⟩
    intro t ht
    simp only [handleDelete, h] at ht
    have := (List.mem_filter.mp ht).2
    simpa using this

/-- C10 witness: a failing delete leaves the initial state with only the
error message set, and a successful delete of the sample task removes it
from a singleton list. -/
theorem claim10_witness :
    handleDelete { initialAppState with tasks := [sampleTask] } "42"
        (fun _ => Except.error "boom")
      = { initialAppState with
          tasks := [sampleTask]
          error := some (jsOrDefault "boom" "Failed to delete task") } ∧
    (handleDelete { initialAppState with tasks := [sampleTask] } "42"
        (fun _ => Except.ok ())).tasks
      = List.filter (fun t => t._id != "42") [sampleTask] := by
  constructor
  · exact (claim10_mutation_handlers { initialAppState with tasks := [sampleTask] }
      sampleTask "42" "boom" "todo" sampleTask).2.2.1
      (fun _ => Except.error "boom") rfl
  · exact ((claim10_mutation_handlers { initialAppState with tasks := [sampleTask] }
      sampleTask "42" "boom" "todo" sampleTask).2.2.2.2.2
      (fun _ => Except.ok ()) rfl).1

end TaskManager
